import Mathlib

/-!
Verification development for the blockdedup deduplication engine.

The program scans the whole 4096-byte blocks of a list of files, hashes each
block with CRC-64/ECMA-182, keeps a single-slot-per-entry hash table of block
locations, confirms candidate duplicate pairs by re-reading real bytes,
extends a confirmed pair backward and forward block-by-block, and asks the
kernel to share the extents of runs of at least 16 blocks.

The definitions below are a shallow embedding of `src/main.rs`.  A file is
modelled as the list of its whole 4096-byte blocks (each block a list of
byte values); reads through `BufReader` at block granularity become list
indexing.  The `FIDEDUPERANGE` ioctl is a kernel call outside the
repository; its observable outcome (return code, errno, and the
`bytes_deduped` / `status` fields written back into the request) is passed
in as a value of type `IoctlOutcome`, and `do_dedup` models what the
program does with that outcome.
-/

set_option maxRecDepth 8000

namespace Blockdedup

/-- CRC-64/ECMA-182 generator polynomial (the `crc` crate's `CRC_64_ECMA_182`). -/
def crc64Poly : Nat := 0x42F0E1EBA9EA3693

/-- One bit step of the MSB-first CRC-64 computation on a 64-bit accumulator. -/
def crc64Step (c : Nat) : Nat :=
  if c ≥ 2 ^ 63 then ((c * 2) % 2 ^ 64) ^^^ crc64Poly else (c * 2) % 2 ^ 64

/-- Fold one input byte into the CRC-64 accumulator (eight bit steps). -/
def crc64UpdateByte (c b : Nat) : Nat :=
  crc64Step (crc64Step (crc64Step (crc64Step (crc64Step (crc64Step (crc64Step
    (crc64Step (c ^^^ (b * 2 ^ 56)))))))))

/-- CRC-64/ECMA-182 of a byte sequence: `digest.update(&buf); digest.finalize()`
with zero initial value and no final xor. -/
def crc64 (bytes : List Nat) : Nat :=
  bytes.foldl crc64UpdateByte 0

/-- A block is one whole 4096-byte unit of file content. -/
abbrev Block := List Nat

/-- A 4096-byte block whose last byte is `b` and all other bytes are zero.
Used to build concrete test files with easily computed checksums. -/
def mkBlock (b : Nat) : Block := List.replicate 4095 0 ++ [b]

/-- The all-zero 4096-byte block (a hole). -/
def zeroBlock : Block := List.replicate 4096 0

/-- Reading the whole block at a given block offset of a file
(`seek(SeekFrom::Start(offset * 4096))` followed by `read_exact` of 4096
bytes).  A file is modelled as the list of its whole blocks. -/
def readBlock (blocks : List Block) (i : Nat) : Block := blocks.getD i []

/-- Loop body of `find_matching_blocks_before` (`for block_offset in
1..max_blocks_before`).  `block_offset` is the current loop variable and
`rem` the number of loop iterations still to run; when the iterations are
exhausted the function returns `max_blocks_before`, exactly as the Rust
loop falls through to `return max_blocks_before`. -/
def beforeLoop (blocks_keep blocks_dedup : List Block)
    (block_offset_keep block_offset_dedup : Nat) (max_blocks_before : Nat) :
    Nat → Nat → Nat
  | _, 0 => max_blocks_before
  | block_offset, rem + 1 =>
    let buf_keep := readBlock blocks_keep (block_offset_keep - block_offset)
    if crc64 buf_keep = 0 then block_offset - 1
    else if buf_keep ≠ readBlock blocks_dedup (block_offset_dedup - block_offset) then
      block_offset - 1
    else
      beforeLoop blocks_keep blocks_dedup block_offset_keep block_offset_dedup
        max_blocks_before (block_offset + 1) rem

/-- Upper bound computed at the top of `find_matching_blocks_before`:
the minimum of the two block offsets, further clamped to
`block_offset_dedup - block_offset_keep` when both offsets are in the same
file. -/
def maxBeforeBound (keep_equals_dedup : Bool) (block_offset_keep block_offset_dedup : Nat) :
    Nat :=
  let m1 := if block_offset_keep < block_offset_dedup then block_offset_keep
            else block_offset_dedup
  if keep_equals_dedup then
    if block_offset_dedup - block_offset_keep < m1 then
      block_offset_dedup - block_offset_keep
    else m1
  else m1

/-- Embedding of `find_matching_blocks_before`: count how many blocks
directly before the anchor pair also match, walking backward one block at a
time. -/
def find_matching_blocks_before (keep_equals_dedup : Bool) (blocks_keep : List Block)
    (block_offset_keep : Nat) (blocks_dedup : List Block) (block_offset_dedup : Nat) : Nat :=
  let max_blocks_before := maxBeforeBound keep_equals_dedup block_offset_keep block_offset_dedup
  beforeLoop blocks_keep blocks_dedup block_offset_keep block_offset_dedup max_blocks_before
    1 (max_blocks_before - 1)

/-- Loop body of `find_matching_blocks_behind` (`for block_offset in
1..max_blocks_behind`); the readers advance sequentially from the block
after each anchor, so iteration `block_offset` reads the blocks at
offsets `block_offset_keep + block_offset` and `block_offset_dedup +
block_offset`. -/
def behindLoop (blocks_keep blocks_dedup : List Block)
    (block_offset_keep block_offset_dedup : Nat) (max_blocks_behind : Nat) :
    Nat → Nat → Nat
  | _, 0 => max_blocks_behind
  | block_offset, rem + 1 =>
    let buf_keep := readBlock blocks_keep (block_offset_keep + block_offset)
    if crc64 buf_keep = 0 then block_offset - 1
    else if buf_keep ≠ readBlock blocks_dedup (block_offset_dedup + block_offset) then
      block_offset - 1
    else
      behindLoop blocks_keep blocks_dedup block_offset_keep block_offset_dedup
        max_blocks_behind (block_offset + 1) rem

/-- Upper bound computed at the top of `find_matching_blocks_behind`: the
minimum of the whole-block counts remaining at each anchor, clamped in the
same-file case by the anchor distance minus the blocks already matched
before the anchors. -/
def maxBehindBound (keep_equals_dedup : Bool) (block_offset_keep full_blocks_keep
    block_offset_dedup full_blocks_dedup matching_before : Nat) : Nat :=
  let m2 :=
    if full_blocks_keep - block_offset_keep < full_blocks_dedup - block_offset_dedup then
      full_blocks_keep - block_offset_keep
    else full_blocks_dedup - block_offset_dedup
  if keep_equals_dedup then
    if block_offset_dedup - block_offset_keep - matching_before < m2 then
      block_offset_dedup - block_offset_keep - matching_before
    else m2
  else m2

/-- Embedding of `find_matching_blocks_behind`: count how many blocks
directly after the anchor pair also match, walking forward one block at a
time. -/
def find_matching_blocks_behind (keep_equals_dedup : Bool) (blocks_keep : List Block)
    (block_offset_keep full_blocks_keep : Nat) (blocks_dedup : List Block)
    (block_offset_dedup full_blocks_dedup : Nat) (matching_before : Nat) : Nat :=
  let max_blocks_behind :=
    maxBehindBound keep_equals_dedup block_offset_keep full_blocks_keep block_offset_dedup
      full_blocks_dedup matching_before
  behindLoop blocks_keep blocks_dedup block_offset_keep block_offset_dedup max_blocks_behind
    1 (max_blocks_behind - 1)

/-- Embedding of the pure result of `try_dedupe_match`: re-read the two
anchor blocks; if they differ the hash hit was a false collision and the
result is `(0, 0)`; otherwise extend backward and forward and return
`(blocks_before + 1 + blocks_behind, blocks_behind)`.  The whole-block
counts used by the forward search come from the file sizes
(`file_size / 4096`), which for a file modelled by its whole blocks is the
length of the block list. -/
def try_dedupe_match (blocks_keep : List Block) (block_offset_keep : Nat)
    (blocks_dedup : List Block) (block_offset_dedup : Nat) (keep_equals_dedup : Bool) :
    Nat × Nat :=
  let buf_keep := readBlock blocks_keep block_offset_keep
  let buf_dedupe := readBlock blocks_dedup block_offset_dedup
  if buf_keep ≠ buf_dedupe then (0, 0)
  else
    let blocks_before :=
      find_matching_blocks_before keep_equals_dedup blocks_keep block_offset_keep blocks_dedup
        block_offset_dedup
    let blocks_behind :=
      find_matching_blocks_behind keep_equals_dedup blocks_keep block_offset_keep
        blocks_keep.length blocks_dedup block_offset_dedup blocks_dedup.length blocks_before
    (blocks_before + 1 + blocks_behind, blocks_behind)

/-- Observable outcome of the `FIDEDUPERANGE` ioctl: its return code, the
`errno` value in effect afterwards, and the `bytes_deduped` / `status`
fields the kernel wrote back into the request structure.  The ioctl itself
is a kernel service outside this repository. -/
structure IoctlOutcome where
  result : Int
  errno_val : Int
  bytes_deduped : Nat
  status : Int
deriving DecidableEq

/-- Embedding of the tail of `do_dedup`: a nonzero ioctl result prints the
errno value and aborts the whole run (modelled as `Except.error errno`);
a zero result prints the kernel-reported `bytes_deduped` and `status`
values (modelled as returning them). -/
def do_dedup (io : IoctlOutcome) : Except Int (Nat × Int) :=
  if io.result ≠ 0 then Except.error io.errno_val
  else Except.ok (io.bytes_deduped, io.status)

/-- Embedding of `try_dedupe_match` including its call to `do_dedup`: the
match counts are computed first; when not simulating and the confirmed run
has at least 16 blocks the shared-extent request is issued, and a failing
request aborts the run. -/
def try_dedupe_full (simulate : Bool) (io : IoctlOutcome) (blocks_keep : List Block)
    (block_offset_keep : Nat) (blocks_dedup : List Block) (block_offset_dedup : Nat)
    (keep_equals_dedup : Bool) : Except Int (Nat × Nat) :=
  let r := try_dedupe_match blocks_keep block_offset_keep blocks_dedup block_offset_dedup
    keep_equals_dedup
  if ¬ simulate ∧ 16 ≤ r.1 then
    match do_dedup io with
    | Except.error e => Except.error e
    | Except.ok _ => Except.ok r
  else Except.ok r

/-- One entry of the `hashes` table (`struct Blockinfo`). -/
structure Blockinfo where
  crc : Nat
  block_number_plus_one : Nat
  file_index : Nat
deriving DecidableEq

/-- One scanned file: its path and the list of its whole 4096-byte blocks
(`FileInfo` plus the content the scan reads through it). -/
structure ScanFile where
  path : String
  blocks : List Block
deriving DecidableEq

/-- Mutable state of the scan loop in `main`: the hash table and the two
running totals, plus the per-file `skip_match_check` counter. -/
structure ScanSt where
  hashes : List Blockinfo
  matches_found : Nat
  total_matchsize : Nat
  skip_match_check : Nat
deriving DecidableEq

/-- Embedding of one iteration of the block loop in `main` for the block
`buf` at `block_number` of file `f` (which sits at `file_index` in
`file_list`): hash the block; a zero checksum skips the block entirely;
otherwise either consume one unit of the skip counter or run the match
check against the hash-table entry at slot `crc % block_count`, and in
both paths record this block's own checksum and location in the table. -/
def scanStepE (simulate : Bool) (io : IoctlOutcome) (file_list : List ScanFile)
    (file_index : Nat) (f : ScanFile) (buf : Block) (block_number : Nat) (st : ScanSt) :
    Except Int ScanSt :=
  let crc_result := crc64 buf
  if crc_result ≠ 0 then
    let block_count := f.blocks.length
    let hash_index := crc_result % block_count
    let updated := st.hashes.set hash_index
      ⟨crc_result, block_number + 1, file_index⟩
    if 0 < st.skip_match_check then
      Except.ok { st with skip_match_check := st.skip_match_check - 1, hashes := updated }
    else
      let entry := st.hashes.getD hash_index ⟨0, 0, 0⟩
      if 0 < entry.block_number_plus_one ∧ entry.crc = crc_result then
        let matched_file := file_list.getD entry.file_index ⟨"", []⟩
        match try_dedupe_full simulate io matched_file.blocks
          (entry.block_number_plus_one - 1) f.blocks block_number
          (matched_file.path == f.path) with
        | Except.error e => Except.error e
        | Except.ok (matched_blocks, matched_blocks_behind) =>
          if 0 < matched_blocks then
            Except.ok { hashes := updated, matches_found := st.matches_found + 1,
                        total_matchsize := st.total_matchsize + matched_blocks,
                        skip_match_check := matched_blocks_behind }
          else Except.ok { st with hashes := updated }
      else Except.ok { st with hashes := updated }
  else Except.ok st

/-- Embedding of the `while block_number < block_count` loop of `main`: the
blocks of the current file are consumed in order; a failing shared-extent
request aborts the whole run immediately (no later block is visited). -/
def scanBlocksE (simulate : Bool) (io : IoctlOutcome) (file_list : List ScanFile)
    (file_index : Nat) (f : ScanFile) :
    List Block → Nat → ScanSt → Except Int ScanSt
  | [], _, st => Except.ok st
  | buf :: rest, block_number, st =>
    match scanStepE simulate io file_list file_index f buf block_number st with
    | Except.error e => Except.error e
    | Except.ok st2 =>
      scanBlocksE simulate io file_list file_index f rest (block_number + 1) st2

/-- Scan one file: the skip counter is a fresh per-file variable in `main`,
so it starts at zero for every file. -/
def scanFileE (simulate : Bool) (io : IoctlOutcome) (file_list : List ScanFile)
    (file_index : Nat) (f : ScanFile) (st : ScanSt) : Except Int ScanSt :=
  scanBlocksE simulate io file_list file_index f f.blocks 0
    { st with skip_match_check := 0 }

/-- Embedding of the `for (file_index, file_info) in file_list.iter().enumerate()`
loop of `main`. -/
def scanFilesE (simulate : Bool) (io : IoctlOutcome) (file_list : List ScanFile) :
    List ScanFile → Nat → ScanSt → Except Int ScanSt
  | [], _, st => Except.ok st
  | f :: rest, file_index, st =>
    match scanFileE simulate io file_list file_index f st with
    | Except.error e => Except.error e
    | Except.ok st2 => scanFilesE simulate io file_list rest (file_index + 1) st2

/-- Grand total of whole blocks over all files, as computed by the file
catalog and used by `main` to size the `hashes` vector. -/
def totalFullBlocks (file_list : List ScanFile) : Nat :=
  (file_list.map (fun f => f.blocks.length)).sum

/-- Embedding of the scan portion of `main`: allocate one `Blockinfo` slot
per block of the whole input set, scan every file, and report the final
`(matches, total_matchsize)` totals. -/
def runScanE (simulate : Bool) (io : IoctlOutcome) (file_list : List ScanFile) :
    Except Int (Nat × Nat) :=
  let st0 : ScanSt := ⟨List.replicate (totalFullBlocks file_list) ⟨0, 0, 0⟩, 0, 0, 0⟩
  match scanFilesE simulate io file_list file_list 0 st0 with
  | Except.error e => Except.error e
  | Except.ok st => Except.ok (st.matches_found, st.total_matchsize)

mutual
/-- Filesystem tree seen by the file catalog: a regular file with its byte
size, or a directory with an ordered sequence of entries. -/
inductive FsTree where
  | file (path : String) (size : Nat)
  | dir (entries : FsForest)
/-- Ordered sequence of directory entries as produced by `read_dir`. -/
inductive FsForest where
  | nil
  | cons (t : FsTree) (ts : FsForest)
end

/-- One entry of the file list built by the catalog (`struct FileInfo`). -/
structure FileInfo where
  path : String
  full_blocks : Nat
deriving DecidableEq

mutual
/-- Embedding of `build_file_list_recurse`: a regular file contributes
`size / 4096` whole blocks and is pushed onto the list only when that
count is nonzero; a directory contributes the concatenation of its
entries' results in order. -/
def build_file_list_recurse : FsTree → List FileInfo × Nat
  | FsTree.file p size =>
    let full_blocks := size / 4096
    if full_blocks = 0 then ([], 0)
    else ([⟨p, full_blocks⟩], full_blocks)
  | FsTree.dir entries => buildForest entries
/-- Catalog traversal of a directory entry sequence, in order. -/
def buildForest : FsForest → List FileInfo × Nat
  | FsForest.nil => ([], 0)
  | FsForest.cons t ts =>
    let r1 := build_file_list_recurse t
    let r2 := buildForest ts
    (r1.1 ++ r2.1, r1.2 + r2.2)
end

/-- Embedding of `build_file_list` (the progress display is output only). -/
def build_file_list (t : FsTree) : List FileInfo × Nat :=
  build_file_list_recurse t

/-- Block `b` lies inside the reported run anchored at `anchor` with
`blocks_before` backward and `blocks_behind` forward blocks: the run covers
block offsets `anchor - blocks_before` through `anchor + blocks_behind`. -/
def inReportedRun (anchor blocks_before blocks_behind b : Nat) : Prop :=
  anchor - blocks_before ≤ b ∧ b ≤ anchor + blocks_behind

instance (anchor blocks_before blocks_behind b : Nat) :
    Decidable (inReportedRun anchor blocks_before blocks_behind b) := by
  unfold inReportedRun
  infer_instance

/-- Concrete filesystem tree: a directory holding an 8192-byte file and a
100-byte file. -/
def exampleTree : FsTree :=
  FsTree.dir (FsForest.cons (FsTree.file "/a" 8192)
    (FsForest.cons (FsTree.file "/b" 100) FsForest.nil))

/-- Concrete scan input: a single file of two identical nonzero blocks. -/
def fAA : ScanFile := ⟨"/a", [mkBlock 1, mkBlock 1]⟩

/-- Concrete scan input: a single file of three identical nonzero blocks. -/
def fAAA : ScanFile := ⟨"/a", [mkBlock 1, mkBlock 1, mkBlock 1]⟩

/-- Concrete scan input, first file: block 0 distinct, block 1 shared. -/
def fBA : ScanFile := ⟨"/a", [mkBlock 2, mkBlock 1]⟩

/-- Concrete scan input, second file: block 0 distinct (and different from
`fBA`'s block 0), block 1 shared with `fBA`. -/
def fCA : ScanFile := ⟨"/b", [mkBlock 5, mkBlock 1]⟩

/-- Concrete scan input: hole block followed by a shared nonzero block. -/
def fZA1 : ScanFile := ⟨"/a", [zeroBlock, mkBlock 1]⟩

/-- Concrete scan input: same content as `fZA1` under another path. -/
def fZA2 : ScanFile := ⟨"/b", [zeroBlock, mkBlock 1]⟩

/-- Concrete scan input: two-block file whose block 0 duplicates `fAX3`'s
block 0. -/
def fAX2 : ScanFile := ⟨"/a", [mkBlock 1, mkBlock 2]⟩

/-- Concrete scan input: three-block file whose block 0 duplicates `fAX2`'s
block 0. -/
def fAX3 : ScanFile := ⟨"/b", [mkBlock 1, mkBlock 3, mkBlock 4]⟩

/-- Concrete file content: seventeen identical nonzero blocks. -/
def blocks17 : List Block := List.replicate 17 (mkBlock 1)

/-- Concrete ioctl outcome of a failing shared-extent request
(result 1, errno 95). -/
def ioFail : IoctlOutcome := ⟨1, 95, 0, 0⟩

/-- Concrete ioctl outcome of a successful shared-extent request. -/
def ioOk : IoctlOutcome := ⟨0, 0, 65536, 0⟩

/-! ### Checksum lemmas -/

lemma crc64UpdateByte_zero_zero : crc64UpdateByte 0 0 = 0 := by decide

lemma foldl_crc_replicate_zero (n : Nat) :
    List.foldl crc64UpdateByte 0 (List.replicate n 0) = 0 := by
  induction n with
  | zero => rfl
  | succ n ih => rw [List.replicate_succ, List.foldl_cons, crc64UpdateByte_zero_zero, ih]

lemma crc64_mkBlock (b : Nat) : crc64 (mkBlock b) = crc64UpdateByte 0 b := by
  show List.foldl crc64UpdateByte 0 (List.replicate 4095 0 ++ [b]) = crc64UpdateByte 0 b
  rw [List.foldl_append, foldl_crc_replicate_zero, List.foldl_cons, List.foldl_nil]

lemma crc64_zeroBlock : crc64 zeroBlock = 0 := foldl_crc_replicate_zero 4096

lemma mkBlock_inj {a b : Nat} : mkBlock a = mkBlock b ↔ a = b := by
  constructor
  · intro h
    have h2 := List.append_cancel_left h
    simpa using h2
  · intro h
    rw [h]

lemma crcVal1 : crc64UpdateByte 0 1 = 4823603603198064275 := by decide

lemma crcVal2 : crc64UpdateByte 0 2 = 9647207206396128550 := by decide

lemma crcVal3 : crc64UpdateByte 0 3 = 14344283933443513269 := by decide

lemma crcVal4 : crc64UpdateByte 0 4 = 5274672035359026399 := by decide

lemma crcVal5 : crc64UpdateByte 0 5 = 847670339082705484 := by decide

attribute [irreducible] mkBlock zeroBlock crc64

/-! ### Behaviour of the extension loops -/

lemma beforeLoop_succ (bk bd : List Block) (k d maxB off n : Nat) :
    beforeLoop bk bd k d maxB off (n + 1) =
      if crc64 (readBlock bk (k - off)) = 0 then off - 1
      else if readBlock bk (k - off) ≠ readBlock bd (d - off) then off - 1
      else beforeLoop bk bd k d maxB (off + 1) n := rfl

lemma behindLoop_succ (bk bd : List Block) (k d maxB off n : Nat) :
    behindLoop bk bd k d maxB off (n + 1) =
      if crc64 (readBlock bk (k + off)) = 0 then off - 1
      else if readBlock bk (k + off) ≠ readBlock bd (d + off) then off - 1
      else behindLoop bk bd k d maxB (off + 1) n := rfl

/-- Either the backward loop runs to exhaustion and returns its bound, or it
stops at some offset `j` because the keep-side block there has checksum zero
or the two blocks at distance `j` differ, returning `j - 1`. -/
lemma beforeLoop_spec (bk bd : List Block) (k d maxB : Nat) :
    ∀ rem off, off + rem = maxB → 1 ≤ off →
      beforeLoop bk bd k d maxB off rem = maxB ∨
      ∃ j, off ≤ j ∧ j < maxB ∧ beforeLoop bk bd k d maxB off rem = j - 1 ∧
        (crc64 (readBlock bk (k - j)) = 0 ∨ readBlock bk (k - j) ≠ readBlock bd (d - j)) := by
  intro rem
  induction rem with
  | zero => intro off _ _; exact Or.inl rfl
  | succ n ih =>
    intro off hsum hoff
    rw [beforeLoop_succ]
    by_cases h1 : crc64 (readBlock bk (k - off)) = 0
    · rw [if_pos h1]
      exact Or.inr ⟨off, le_refl _, by omega, rfl, Or.inl h1⟩
    · rw [if_neg h1]
      by_cases h2 : readBlock bk (k - off) ≠ readBlock bd (d - off)
      · rw [if_pos h2]
        exact Or.inr ⟨off, le_refl _, by omega, rfl, Or.inr h2⟩
      · rw [if_neg h2]
        rcases ih (off + 1) (by omega) (by omega) with h | ⟨j, hj1, hj2, hj3, hj4⟩
        · exact Or.inl h
        · exact Or.inr ⟨j, by omega, hj2, hj3, hj4⟩

/-- Either the forward loop runs to exhaustion and returns its bound, or it
stops at some offset `j` because the keep-side block there has checksum zero
or the two blocks at distance `j` differ, returning `j - 1`. -/
lemma behindLoop_spec (bk bd : List Block) (k d maxA : Nat) :
    ∀ rem off, off + rem = maxA → 1 ≤ off →
      behindLoop bk bd k d maxA off rem = maxA ∨
      ∃ j, off ≤ j ∧ j < maxA ∧ behindLoop bk bd k d maxA off rem = j - 1 ∧
        (crc64 (readBlock bk (k + j)) = 0 ∨ readBlock bk (k + j) ≠ readBlock bd (d + j)) := by
  intro rem
  induction rem with
  | zero => intro off _ _; exact Or.inl rfl
  | succ n ih =>
    intro off hsum hoff
    rw [behindLoop_succ]
    by_cases h1 : crc64 (readBlock bk (k + off)) = 0
    · rw [if_pos h1]
      exact Or.inr ⟨off, le_refl _, by omega, rfl, Or.inl h1⟩
    · rw [if_neg h1]
      by_cases h2 : readBlock bk (k + off) ≠ readBlock bd (d + off)
      · rw [if_pos h2]
        exact Or.inr ⟨off, le_refl _, by omega, rfl, Or.inr h2⟩
      · rw [if_neg h2]
        rcases ih (off + 1) (by omega) (by omega) with h | ⟨j, hj1, hj2, hj3, hj4⟩
        · exact Or.inl h
        · exact Or.inr ⟨j, by omega, hj2, hj3, hj4⟩

lemma maxBeforeBound_cases (same : Bool) (k d : Nat) :
    maxBeforeBound same k d = k ∨ maxBeforeBound same k d = d ∨
      (same = true ∧ maxBeforeBound same k d = d - k) := by
  cases same <;> simp only [maxBeforeBound] <;> split_ifs <;> simp_all

lemma maxBehindBound_cases (same : Bool) (k fk d fd mb : Nat) :
    maxBehindBound same k fk d fd mb = fk - k ∨ maxBehindBound same k fk d fd mb = fd - d ∨
      (same = true ∧ maxBehindBound same k fk d fd mb = d - k - mb) := by
  cases same <;> simp only [maxBehindBound] <;> split_ifs <;> simp_all

/-- C5.  Maximality: for every confirmed match (positive reported count) the
reported run is `(blocks_before + 1 + blocks_behind, blocks_behind)`, and
extending it one further block backward or forward either fails the byte
equality check or is impossible: the extra block would lie before the start
or past the whole blocks of one of the files, the keep-side block one step
beyond has the zero hole checksum, or (same-file case) the widened keep and
new ranges would overlap because the widened run length would exceed the
anchor distance. -/
theorem try_dedupe_match_maximality
    (blocks_keep blocks_dedup : List Block) (block_offset_keep block_offset_dedup : Nat)
    (keep_equals_dedup : Bool) (blocks_before blocks_behind : Nat)
    (hbefore : blocks_before = find_matching_blocks_before keep_equals_dedup blocks_keep
      block_offset_keep blocks_dedup block_offset_dedup)
    (hbehind : blocks_behind = find_matching_blocks_behind keep_equals_dedup blocks_keep
      block_offset_keep blocks_keep.length blocks_dedup block_offset_dedup
      blocks_dedup.length blocks_before)
    (hpos : 0 < (try_dedupe_match blocks_keep block_offset_keep blocks_dedup
      block_offset_dedup keep_equals_dedup).1) :
    try_dedupe_match blocks_keep block_offset_keep blocks_dedup block_offset_dedup
        keep_equals_dedup = (blocks_before + 1 + blocks_behind, blocks_behind) ∧
    (block_offset_keep ≤ blocks_before ∨ block_offset_dedup ≤ blocks_before ∨
      crc64 (readBlock blocks_keep (block_offset_keep - blocks_before - 1)) = 0 ∨
      readBlock blocks_keep (block_offset_keep - blocks_before - 1) ≠
        readBlock blocks_dedup (block_offset_dedup - blocks_before - 1) ∨
      (keep_equals_dedup = true ∧
        block_offset_dedup - block_offset_keep < blocks_before + blocks_behind + 2)) ∧
    (blocks_keep.length ≤ block_offset_keep + blocks_behind + 1 ∨
      blocks_dedup.length ≤ block_offset_dedup + blocks_behind + 1 ∨
      crc64 (readBlock blocks_keep (block_offset_keep + blocks_behind + 1)) = 0 ∨
      readBlock blocks_keep (block_offset_keep + blocks_behind + 1) ≠
        readBlock blocks_dedup (block_offset_dedup + blocks_behind + 1) ∨
      (keep_equals_dedup = true ∧
        block_offset_dedup - block_offset_keep < blocks_before + blocks_behind + 2)) := by
  have hanchor : readBlock blocks_keep block_offset_keep =
      readBlock blocks_dedup block_offset_dedup := by
    by_contra hne
    simp only [try_dedupe_match, if_pos hne] at hpos
    omega
  refine ⟨?_, ?_, ?_⟩
  · simp only [try_dedupe_match, if_neg (not_not_intro hanchor)]
    rw [← hbefore, ← hbehind]
  · -- backward maximality
    rw [find_matching_blocks_before] at hbefore
    by_cases hM : maxBeforeBound keep_equals_dedup block_offset_keep block_offset_dedup = 0
    · rw [hM] at hbefore
      rcases maxBeforeBound_cases keep_equals_dedup block_offset_keep block_offset_dedup with
        h | h | ⟨hs, h⟩
      · exact Or.inl (by omega)
      · exact Or.inr (Or.inl (by omega))
      · exact Or.inr (Or.inr (Or.inr (Or.inr ⟨hs, by omega⟩)))
    · rcases beforeLoop_spec blocks_keep blocks_dedup block_offset_keep block_offset_dedup
        (maxBeforeBound keep_equals_dedup block_offset_keep block_offset_dedup)
        (maxBeforeBound keep_equals_dedup block_offset_keep block_offset_dedup - 1) 1
        (by omega) (by omega) with h | ⟨j, hj1, hj2, hj3, hj4⟩
      · rw [h] at hbefore
        rcases maxBeforeBound_cases keep_equals_dedup block_offset_keep block_offset_dedup with
          hc | hc | ⟨hs, hc⟩
        · exact Or.inl (by omega)
        · exact Or.inr (Or.inl (by omega))
        · exact Or.inr (Or.inr (Or.inr (Or.inr ⟨hs, by omega⟩)))
      · rw [hj3] at hbefore
        have hjb : j = blocks_before + 1 := by omega
        rw [hjb] at hj4
        rw [show block_offset_keep - (blocks_before + 1) = block_offset_keep - blocks_before - 1
          from by omega, show block_offset_dedup - (blocks_before + 1) =
          block_offset_dedup - blocks_before - 1 from by omega] at hj4
        rcases hj4 with h4 | h4
        · exact Or.inr (Or.inr (Or.inl h4))
        · exact Or.inr (Or.inr (Or.inr (Or.inl h4)))
  · -- forward maximality
    rw [find_matching_blocks_behind] at hbehind
    by_cases hM : maxBehindBound keep_equals_dedup block_offset_keep blocks_keep.length
        block_offset_dedup blocks_dedup.length blocks_before = 0
    · rw [hM] at hbehind
      rcases maxBehindBound_cases keep_equals_dedup block_offset_keep blocks_keep.length
        block_offset_dedup blocks_dedup.length blocks_before with h | h | ⟨hs, h⟩
      · exact Or.inl (by omega)
      · exact Or.inr (Or.inl (by omega))
      · exact Or.inr (Or.inr (Or.inr (Or.inr ⟨hs, by omega⟩)))
    · rcases behindLoop_spec blocks_keep blocks_dedup block_offset_keep block_offset_dedup
        (maxBehindBound keep_equals_dedup block_offset_keep blocks_keep.length
          block_offset_dedup blocks_dedup.length blocks_before)
        (maxBehindBound keep_equals_dedup block_offset_keep blocks_keep.length
          block_offset_dedup blocks_dedup.length blocks_before - 1) 1
        (by omega) (by omega) with h | ⟨j, hj1, hj2, hj3, hj4⟩
      · rw [h] at hbehind
        rcases maxBehindBound_cases keep_equals_dedup block_offset_keep blocks_keep.length
          block_offset_dedup blocks_dedup.length blocks_before with hc | hc | ⟨hs, hc⟩
        · exact Or.inl (by omega)
        · exact Or.inr (Or.inl (by omega))
        · exact Or.inr (Or.inr (Or.inr (Or.inr ⟨hs, by omega⟩)))
      · rw [hj3] at hbehind
        have hjb : j = blocks_behind + 1 := by omega
        rw [hjb] at hj4
        rw [show block_offset_keep + (blocks_behind + 1) = block_offset_keep + blocks_behind + 1
          from by omega, show block_offset_dedup + (blocks_behind + 1) =
          block_offset_dedup + blocks_behind + 1 from by omega] at hj4
        rcases hj4 with h4 | h4
        · exact Or.inr (Or.inr (Or.inl h4))
        · exact Or.inr (Or.inr (Or.inr (Or.inl h4)))

/-- Witness for C5 at the single file `[A, A]` with anchors 0 and 1. -/
theorem try_dedupe_match_maximality_witness :
    0 < (try_dedupe_match [mkBlock 1, mkBlock 1] 0 [mkBlock 1, mkBlock 1] 1 true).1 ∧
    (try_dedupe_match [mkBlock 1, mkBlock 1] 0 [mkBlock 1, mkBlock 1] 1 true =
        (0 + 1 + 1, 1) ∧
      ((0 : Nat) ≤ 0 ∨ (1 : Nat) ≤ 0 ∨
        crc64 (readBlock [mkBlock 1, mkBlock 1] (0 - 0 - 1)) = 0 ∨
        readBlock [mkBlock 1, mkBlock 1] (0 - 0 - 1) ≠
          readBlock [mkBlock 1, mkBlock 1] (1 - 0 - 1) ∨
        (true = true ∧ 1 - 0 < 0 + 1 + 2)) ∧
      ([mkBlock 1, mkBlock 1].length ≤ 0 + 1 + 1 ∨
        [mkBlock 1, mkBlock 1].length ≤ 1 + 1 + 1 ∨
        crc64 (readBlock [mkBlock 1, mkBlock 1] (0 + 1 + 1)) = 0 ∨
        readBlock [mkBlock 1, mkBlock 1] (0 + 1 + 1) ≠
          readBlock [mkBlock 1, mkBlock 1] (1 + 1 + 1) ∨
        (true = true ∧ 1 - 0 < 0 + 1 + 2))) := by
  have hpos : 0 < (try_dedupe_match [mkBlock 1, mkBlock 1] 0 [mkBlock 1, mkBlock 1] 1 true).1 := by
    norm_num [try_dedupe_match, find_matching_blocks_before, find_matching_blocks_behind,
      maxBeforeBound, maxBehindBound, beforeLoop, behindLoop, readBlock]
  exact ⟨hpos, try_dedupe_match_maximality [mkBlock 1, mkBlock 1] [mkBlock 1, mkBlock 1]
    0 1 true 0 1 (by rfl) (by rfl) hpos⟩

/-! ### Symbolic evaluation of the scan on small concrete shapes -/

lemma replicate_bi_2 : List.replicate 2 (⟨0,0,0⟩ : Blockinfo) = [⟨0,0,0⟩, ⟨0,0,0⟩] := rfl

lemma replicate_bi_3 : List.replicate 3 (⟨0,0,0⟩ : Blockinfo) =
    [⟨0,0,0⟩, ⟨0,0,0⟩, ⟨0,0,0⟩] := rfl

lemma replicate_bi_4 : List.replicate 4 (⟨0,0,0⟩ : Blockinfo) =
    [⟨0,0,0⟩, ⟨0,0,0⟩, ⟨0,0,0⟩, ⟨0,0,0⟩] := rfl

lemma replicate_bi_5 : List.replicate 5 (⟨0,0,0⟩ : Blockinfo) =
    [⟨0,0,0⟩, ⟨0,0,0⟩, ⟨0,0,0⟩, ⟨0,0,0⟩, ⟨0,0,0⟩] := rfl

lemma readBlock_replicate (n : Nat) (x : Block) (i : Nat) (h : i < n) :
    readBlock (List.replicate n x) i = x := by
  rw [readBlock, List.getD_eq_getElem?_getD, List.getElem?_replicate]
  simp [h]

/-- Scan of a single file of two identical nonzero blocks: the program
reports one match of two blocks, with one block behind the anchor, although
the file has no block at offset 2 and the forward loop compared nothing. -/
lemma runScan_two_identical (p : String) (a : Block)
    (hca : crc64 a = 4823603603198064275) :
    runScanE false ioOk [⟨p, [a, a]⟩] = Except.ok (1, 2) ∧
    try_dedupe_match [a, a] 0 [a, a] 1 true = (2, 1) := by
  constructor
  · simp [runScanE, totalFullBlocks, scanFilesE, scanFileE, scanBlocksE, scanStepE,
      try_dedupe_full, try_dedupe_match, find_matching_blocks_before,
      find_matching_blocks_behind, maxBeforeBound, maxBehindBound, beforeLoop, behindLoop,
      do_dedup, readBlock, ioOk, hca, replicate_bi_2]
  · simp [try_dedupe_match, find_matching_blocks_before, find_matching_blocks_behind,
      maxBeforeBound, maxBehindBound, beforeLoop, behindLoop, readBlock, hca]

/-- Scan of a single file of three identical nonzero blocks: one match of
two blocks whose keep range [0,1] and new range [1,2] share block 1. -/
lemma runScan_three_identical (p : String) (a : Block)
    (hca : crc64 a = 4823603603198064275) :
    runScanE false ioOk [⟨p, [a, a, a]⟩] = Except.ok (1, 2) ∧
    try_dedupe_match [a, a, a] 0 [a, a, a] 1 true = (2, 1) := by
  constructor
  · simp [runScanE, totalFullBlocks, scanFilesE, scanFileE, scanBlocksE, scanStepE,
      try_dedupe_full, try_dedupe_match, find_matching_blocks_before,
      find_matching_blocks_behind, maxBeforeBound, maxBehindBound, beforeLoop, behindLoop,
      do_dedup, readBlock, ioOk, hca, replicate_bi_3]
  · simp [try_dedupe_match, find_matching_blocks_before, find_matching_blocks_behind,
      maxBeforeBound, maxBehindBound, beforeLoop, behindLoop, readBlock, hca]

/-- Scan of two two-block files that share only their second block: the
program reports one match of three blocks although the leading blocks were
never compared. -/
lemma runScan_before_overclaim (p q : String) (a b c : Block)
    (hpq : (p == q) = false)
    (hca : crc64 a = 4823603603198064275)
    (hcb : crc64 b = 9647207206396128550)
    (hcc : crc64 c = 847670339082705484) :
    runScanE false ioOk [⟨p, [b, a]⟩, ⟨q, [c, a]⟩] = Except.ok (1, 3) ∧
    try_dedupe_match [b, a] 1 [c, a] 1 false = (3, 1) := by
  constructor
  · simp [runScanE, totalFullBlocks, scanFilesE, scanFileE, scanBlocksE, scanStepE,
      try_dedupe_full, try_dedupe_match, find_matching_blocks_before,
      find_matching_blocks_behind, maxBeforeBound, maxBehindBound, beforeLoop, behindLoop,
      do_dedup, readBlock, ioOk, hpq, hca, hcb, hcc, replicate_bi_4]
  · simp [try_dedupe_match, find_matching_blocks_before, find_matching_blocks_behind,
      maxBeforeBound, maxBehindBound, beforeLoop, behindLoop, readBlock, hca]

/-- Scan of two copies of a hole block followed by a shared nonzero block:
the reported run covers the hole blocks although they were never compared
and carry the zero sentinel checksum. -/
lemma runScan_zero_overclaim (p q : String) (z a : Block)
    (hpq : (p == q) = false)
    (hcz : crc64 z = 0)
    (hca : crc64 a = 4823603603198064275) :
    runScanE false ioOk [⟨p, [z, a]⟩, ⟨q, [z, a]⟩] = Except.ok (1, 3) ∧
    try_dedupe_match [z, a] 1 [z, a] 1 false = (3, 1) := by
  constructor
  · simp [runScanE, totalFullBlocks, scanFilesE, scanFileE, scanBlocksE, scanStepE,
      try_dedupe_full, try_dedupe_match, find_matching_blocks_before,
      find_matching_blocks_behind, maxBeforeBound, maxBehindBound, beforeLoop, behindLoop,
      do_dedup, readBlock, ioOk, hpq, hcz, hca, replicate_bi_4]
  · simp [try_dedupe_match, find_matching_blocks_before, find_matching_blocks_behind,
      maxBeforeBound, maxBehindBound, beforeLoop, behindLoop, readBlock, hca]

/-- Scan of a two-block and a three-block file sharing their first block:
the per-file modulus sends the same checksum to different slots in the two
files, so the genuine cross-file duplicate is never tried and the run ends
with zero matches. -/
lemma runScan_modulus_mismatch (p q : String) (a b c d : Block)
    (hca : crc64 a = 4823603603198064275)
    (hcb : crc64 b = 9647207206396128550)
    (hcc : crc64 c = 14344283933443513269)
    (hcd : crc64 d = 5274672035359026399) :
    runScanE false ioOk [⟨p, [a, b]⟩, ⟨q, [a, c, d]⟩] = Except.ok (0, 0) := by
  simp [runScanE, totalFullBlocks, scanFilesE, scanFileE, scanBlocksE, scanStepE,
    try_dedupe_full, try_dedupe_match, find_matching_blocks_before,
    find_matching_blocks_behind, maxBeforeBound, maxBehindBound, beforeLoop, behindLoop,
    do_dedup, readBlock, ioOk, hca, hcb, hcc, hcd, replicate_bi_5]

lemma crc64_mkBlock_one : crc64 (mkBlock 1) = 4823603603198064275 :=
  (crc64_mkBlock 1).trans crcVal1

lemma crc64_mkBlock_two : crc64 (mkBlock 2) = 9647207206396128550 :=
  (crc64_mkBlock 2).trans crcVal2

lemma crc64_mkBlock_three : crc64 (mkBlock 3) = 14344283933443513269 :=
  (crc64_mkBlock 3).trans crcVal3

lemma crc64_mkBlock_four : crc64 (mkBlock 4) = 5274672035359026399 :=
  (crc64_mkBlock 4).trans crcVal4

lemma crc64_mkBlock_five : crc64 (mkBlock 5) = 847670339082705484 :=
  (crc64_mkBlock 5).trans crcVal5

/-- C1.  Counter-evidence for verification soundness: on the two files
`fBA = /a : [B, A]` and `fCA = /b : [C, A]` (B, C, A pairwise different
4096-byte blocks, A the only shared content) the scan reports exactly one
match of three blocks (`try_dedupe_match` returns a positive count 3 with
blocks_before = 1), so the reported span covers block 0 of both files, yet
block 0 of the keep file and block 0 of the new file are not byte-identical:
the backward loop `for block_offset in 1..max_blocks_before` with bound 1
runs zero iterations and still reports one backward block. -/
theorem verification_soundness_bug :
    runScanE false ioOk [fBA, fCA] = Except.ok (1, 3) ∧
    try_dedupe_match fBA.blocks 1 fCA.blocks 1 false = (3, 1) ∧
    readBlock fBA.blocks (1 - 1) ≠ readBlock fCA.blocks (1 - 1) := by
  have h := runScan_before_overclaim "/a" "/b" (mkBlock 1) (mkBlock 2) (mkBlock 5)
    (by decide) crc64_mkBlock_one crc64_mkBlock_two crc64_mkBlock_five
  refine ⟨h.1, h.2, ?_⟩
  rw [show readBlock fBA.blocks (1 - 1) = mkBlock 2 from rfl,
    show readBlock fCA.blocks (1 - 1) = mkBlock 5 from rfl, Ne, mkBlock_inj]
  decide

/-- C2.  Counter-evidence for self-overlap safety: on the single file
`fAAA = /a : [A, A, A]` the scan confirms a same-file match anchored at
keep block 0 and new block 1 with blocks_before = 0 and blocks_behind = 1,
so the reported keep block range [0, 1] and new block range [1, 2] both
contain block 1: the two reported byte ranges overlap. -/
theorem self_overlap_bug :
    runScanE false ioOk [fAAA] = Except.ok (1, 2) ∧
    try_dedupe_match fAAA.blocks 0 fAAA.blocks 1 true = (2, 1) ∧
    inReportedRun 0 0 1 1 ∧ inReportedRun 1 0 1 1 := by
  have h := runScan_three_identical "/a" (mkBlock 1) crc64_mkBlock_one
  exact ⟨h.1, h.2, by decide, by decide⟩

/-- C4.  Counter-evidence for in-bounds runs: on the single two-block file
`fAA = /a : [A, A]` the scan reports a match with blocks_behind = 1 at new
offset 1, so the reported run contains block offset 2 = whole_block_count
of a file that only has whole blocks 0 and 1: the reported span extends
past the last whole block. -/
theorem trailing_block_bounds_bug :
    runScanE false ioOk [fAA] = Except.ok (1, 2) ∧
    try_dedupe_match fAA.blocks 0 fAA.blocks 1 true = (2, 1) ∧
    inReportedRun 1 0 1 2 ∧ fAA.blocks.length = 2 := by
  have h := runScan_two_identical "/a" (mkBlock 1) crc64_mkBlock_one
  exact ⟨h.1, h.2, by decide, rfl⟩

/-- C6.  Counter-evidence for zero-block exclusion: on the files
`fZA1 = /a : [Z, A]` and `fZA2 = /b : [Z, A]` (Z the all-zero block) the
scan reports a match of three blocks with blocks_before = 1, so the
reported span crosses into block 0 of both files even though that block
has the zero sentinel checksum and was never compared. -/
theorem zero_block_span_bug :
    runScanE false ioOk [fZA1, fZA2] = Except.ok (1, 3) ∧
    try_dedupe_match fZA1.blocks 1 fZA2.blocks 1 false = (3, 1) ∧
    crc64 (readBlock fZA1.blocks 0) = 0 ∧
    inReportedRun 1 1 1 0 := by
  have h := runScan_zero_overclaim "/a" "/b" zeroBlock (mkBlock 1)
    (by decide) crc64_zeroBlock crc64_mkBlock_one
  refine ⟨h.1, h.2, ?_, by decide⟩
  rw [show readBlock fZA1.blocks 0 = zeroBlock from rfl]
  exact crc64_zeroBlock

/-- C3.  Counter-evidence for global hash-index addressing: the scan of
`fAX2 = /a : [A, X2]` and `fAX3 = /b : [A, X3, X4]` finds no match at all,
although block 0 of both files is the same nonzero block A, because the
lookup and insert slot is `checksum % current_file_block_count`
(`crc_result % block_count` at line 145 with the per-file `block_count`),
not `checksum % table_size`: A is inserted at `crc(A) % 2` while scanning
the first file and looked up at `crc(A) % 3 ≠ crc(A) % 5` in the second. -/
theorem hash_index_modulus_bug :
    runScanE false ioOk [fAX2, fAX3] = Except.ok (0, 0) ∧
    readBlock fAX2.blocks 0 = readBlock fAX3.blocks 0 ∧
    crc64 (readBlock fAX2.blocks 0) ≠ 0 ∧
    crc64 (readBlock fAX3.blocks 0) % fAX3.blocks.length ≠
      crc64 (readBlock fAX3.blocks 0) % totalFullBlocks [fAX2, fAX3] := by
  have h := runScan_modulus_mismatch "/a" "/b" (mkBlock 1) (mkBlock 2) (mkBlock 3)
    (mkBlock 4) crc64_mkBlock_one crc64_mkBlock_two crc64_mkBlock_three crc64_mkBlock_four
  refine ⟨h, rfl, ?_, ?_⟩
  · rw [show readBlock fAX2.blocks 0 = mkBlock 1 from rfl, crc64_mkBlock_one]
    decide
  · rw [show readBlock fAX3.blocks 0 = mkBlock 1 from rfl, crc64_mkBlock_one,
      show fAX3.blocks.length = 3 from rfl,
      show totalFullBlocks [fAX2, fAX3] = 5 from rfl]
    decide

/-! ### Shared-extent failure handling and the skip counter -/

/-- Symbolic evaluation of `try_dedupe_match` on two 17-block files of
identical content with both anchors at block 8. -/
lemma try_dedupe_17 (a : Block) (hca : crc64 a = 4823603603198064275) :
    try_dedupe_match (List.replicate 17 a) 8 (List.replicate 17 a) 8 false = (18, 9) := by
  simp [try_dedupe_match, find_matching_blocks_before, find_matching_blocks_behind,
    maxBeforeBound, maxBehindBound, beforeLoop, behindLoop, readBlock, hca,
    List.length_replicate]

/-- A scan step that finds a 17-block (18 reported) cross-file run while not
simulating issues the shared-extent request; with a failing ioctl outcome
the step aborts with the errno value. -/
lemma scanStep_dedup_fail (p q : String) (a : Block) (hs : List Blockinfo)
    (hpq : (p == q) = false) (hca : crc64 a = 4823603603198064275)
    (hget : hs.getD 10 ⟨0, 0, 0⟩ = ⟨4823603603198064275, 9, 0⟩) :
    scanStepE false ioFail [⟨p, List.replicate 17 a⟩, ⟨q, List.replicate 17 a⟩] 1
      ⟨q, List.replicate 17 a⟩ a 8 ⟨hs, 0, 0, 0⟩ = Except.error 95 := by
  rw [List.getD_eq_getElem?_getD] at hget
  simp [scanStepE, try_dedupe_full, try_dedupe_match, find_matching_blocks_before,
    find_matching_blocks_behind, maxBeforeBound, maxBehindBound, beforeLoop, behindLoop,
    do_dedup, readBlock, hca, hpq, hget, ioFail, List.length_replicate]

/-- Scanning the second of two identical 17-block files from a table that
already records the first file's block 0 aborts at the very first block
when the ioctl fails: no later block of the file is visited. -/
lemma scanFile_dedup_fail (p q : String) (a : Block) (hs : List Blockinfo)
    (hpq : (p == q) = false) (hca : crc64 a = 4823603603198064275)
    (hget : hs.getD 10 ⟨0, 0, 0⟩ = ⟨4823603603198064275, 1, 0⟩) :
    scanFileE false ioFail [⟨p, List.replicate 17 a⟩, ⟨q, List.replicate 17 a⟩] 1
      ⟨q, List.replicate 17 a⟩ ⟨hs, 0, 0, 0⟩ = Except.error 95 := by
  rw [List.getD_eq_getElem?_getD] at hget
  simp [scanFileE, scanBlocksE, scanStepE, try_dedupe_full, try_dedupe_match,
    find_matching_blocks_before, find_matching_blocks_behind, maxBeforeBound,
    maxBehindBound, beforeLoop, behindLoop, do_dedup, readBlock, hca, hpq,
    hget, ioFail, List.length_replicate]

/-- C7.  Shared-extent failure handling: a nonzero ioctl result makes
`do_dedup` report the platform errno value and abort (the error value),
and a zero result surfaces the kernel-reported `bytes_deduped` and
`status` fields; when not simulating, a confirmed run of at least 16
blocks with a failing ioctl aborts `try_dedupe_match`'s caller with that
errno value; and an aborting step ends the block loop and the file loop
immediately, so no further blocks are scanned. -/
theorem dedupe_failure_handling (io : IoctlOutcome) (e : Int) (simulate : Bool)
    (file_list : List ScanFile) (file_index : Nat) (f : ScanFile) (buf : Block)
    (rest : List Block) (block_number : Nat) (st : ScanSt) (fs : List ScanFile)
    (blocks_keep blocks_dedup : List Block) (k d : Nat) (same : Bool) :
    (io.result ≠ 0 → do_dedup io = Except.error io.errno_val) ∧
    (io.result = 0 → do_dedup io = Except.ok (io.bytes_deduped, io.status)) ∧
    (io.result ≠ 0 → 16 ≤ (try_dedupe_match blocks_keep k blocks_dedup d same).1 →
      try_dedupe_full false io blocks_keep k blocks_dedup d same =
        Except.error io.errno_val) ∧
    (scanStepE simulate io file_list file_index f buf block_number st = Except.error e →
      scanBlocksE simulate io file_list file_index f (buf :: rest) block_number st =
        Except.error e) ∧
    (scanFileE simulate io file_list file_index f st = Except.error e →
      scanFilesE simulate io file_list (f :: fs) file_index st = Except.error e) := by
  refine ⟨?_, ?_, ?_, ?_, ?_⟩
  · intro h
    simp [do_dedup, h]
  · intro h
    simp [do_dedup, h]
  · intro h hge
    simp only [try_dedupe_full]
    rw [if_pos ⟨by simp, hge⟩]
    simp [do_dedup, h]
  · intro h
    simp only [scanBlocksE]
    rw [h]
  · intro h
    simp only [scanFilesE]
    rw [h]

/-- Witness for C7: concrete failing outcome (result 1, errno 95), concrete
successful outcome, a concrete aborting 18-block run, and concrete abort
propagation through the block and file loops. -/
theorem dedupe_failure_handling_witness :
    do_dedup ioFail = Except.error 95 ∧
    do_dedup ioOk = Except.ok (65536, 0) ∧
    try_dedupe_full false ioFail (List.replicate 17 (mkBlock 1)) 8
      (List.replicate 17 (mkBlock 1)) 8 false = Except.error 95 ∧
    scanBlocksE false ioFail
      [⟨"/a", List.replicate 17 (mkBlock 1)⟩, ⟨"/b", List.replicate 17 (mkBlock 1)⟩] 1
      ⟨"/b", List.replicate 17 (mkBlock 1)⟩ (mkBlock 1 :: []) 8
      ⟨(List.replicate 17 (⟨0, 0, 0⟩ : Blockinfo)).set 10 ⟨4823603603198064275, 9, 0⟩,
        0, 0, 0⟩ = Except.error 95 ∧
    scanFilesE false ioFail
      [⟨"/a", List.replicate 17 (mkBlock 1)⟩, ⟨"/b", List.replicate 17 (mkBlock 1)⟩]
      [⟨"/b", List.replicate 17 (mkBlock 1)⟩] 1
      ⟨(List.replicate 17 (⟨0, 0, 0⟩ : Blockinfo)).set 10 ⟨4823603603198064275, 1, 0⟩,
        0, 0, 0⟩ = Except.error 95 := by
  have hstep := scanStep_dedup_fail "/a" "/b" (mkBlock 1)
    ((List.replicate 17 (⟨0, 0, 0⟩ : Blockinfo)).set 10 ⟨4823603603198064275, 9, 0⟩)
    (by decide) crc64_mkBlock_one (by rfl)
  have hfile := scanFile_dedup_fail "/a" "/b" (mkBlock 1)
    ((List.replicate 17 (⟨0, 0, 0⟩ : Blockinfo)).set 10 ⟨4823603603198064275, 1, 0⟩)
    (by decide) crc64_mkBlock_one (by rfl)
  have h17 := try_dedupe_17 (mkBlock 1) crc64_mkBlock_one
  refine ⟨?_, ?_, ?_, ?_, ?_⟩
  · exact (dedupe_failure_handling ioFail 95 false [] 0 ⟨"", []⟩ [] [] 0
      ⟨[], 0, 0, 0⟩ [] [] [] 0 0 false).1 (by rw [ioFail]; decide)
  · exact (dedupe_failure_handling ioOk 0 false [] 0 ⟨"", []⟩ [] [] 0
      ⟨[], 0, 0, 0⟩ [] [] [] 0 0 false).2.1 (by rw [ioOk])
  · exact (dedupe_failure_handling ioFail 95 false [] 0 ⟨"", []⟩ [] [] 0
      ⟨[], 0, 0, 0⟩ [] (List.replicate 17 (mkBlock 1)) (List.replicate 17 (mkBlock 1))
      8 8 false).2.2.1 (by rw [ioFail]; decide) (by rw [h17]; norm_num)
  · exact (dedupe_failure_handling ioFail 95 false
      [⟨"/a", List.replicate 17 (mkBlock 1)⟩, ⟨"/b", List.replicate 17 (mkBlock 1)⟩] 1
      ⟨"/b", List.replicate 17 (mkBlock 1)⟩ (mkBlock 1) [] 8
      ⟨(List.replicate 17 (⟨0, 0, 0⟩ : Blockinfo)).set 10 ⟨4823603603198064275, 9, 0⟩,
        0, 0, 0⟩ [] [] [] 0 0 false).2.2.2.1 hstep
  · exact (dedupe_failure_handling ioFail 95 false
      [⟨"/a", List.replicate 17 (mkBlock 1)⟩, ⟨"/b", List.replicate 17 (mkBlock 1)⟩] 1
      ⟨"/b", List.replicate 17 (mkBlock 1)⟩ [] [] 0
      ⟨(List.replicate 17 (⟨0, 0, 0⟩ : Blockinfo)).set 10 ⟨4823603603198064275, 1, 0⟩,
        0, 0, 0⟩ [] [] [] 0 0 false).2.2.2.2 hfile

/-- C8.  Skip-counter state machine: for any scan step on a block with a
nonzero checksum, (1) in the skipping state (counter positive) the step
decrements the counter by one, leaves the match and size totals untouched
(the match check is bypassed), and still writes this block's own checksum
and location into the hash-table slot `crc % block_count`; (2) in the
scanning state (counter zero), when the slot holds a matching record and
the match check confirms a match of `m` blocks with `b` blocks behind, the
step sets the skip counter to `b`, bumps the totals, and writes this
block's own checksum and location into the slot. -/
theorem skip_counter_state_machine (simulate : Bool) (io : IoctlOutcome)
    (file_list : List ScanFile) (file_index : Nat) (f : ScanFile) (buf : Block)
    (block_number : Nat) (st : ScanSt) (entry : Blockinfo) (m b : Nat) :
    (crc64 buf ≠ 0 → 0 < st.skip_match_check →
      scanStepE simulate io file_list file_index f buf block_number st =
        Except.ok ⟨st.hashes.set (crc64 buf % f.blocks.length)
            ⟨crc64 buf, block_number + 1, file_index⟩,
          st.matches_found, st.total_matchsize, st.skip_match_check - 1⟩) ∧
    (crc64 buf ≠ 0 → st.skip_match_check = 0 →
      st.hashes.getD (crc64 buf % f.blocks.length) ⟨0, 0, 0⟩ = entry →
      0 < entry.block_number_plus_one → entry.crc = crc64 buf →
      try_dedupe_full simulate io (file_list.getD entry.file_index ⟨"", []⟩).blocks
        (entry.block_number_plus_one - 1) f.blocks block_number
        ((file_list.getD entry.file_index ⟨"", []⟩).path == f.path) = Except.ok (m, b) →
      0 < m →
      scanStepE simulate io file_list file_index f buf block_number st =
        Except.ok ⟨st.hashes.set (crc64 buf % f.blocks.length)
            ⟨crc64 buf, block_number + 1, file_index⟩,
          st.matches_found + 1, st.total_matchsize + m, b⟩) := by
  constructor
  · intro h1 h2
    simp only [scanStepE]
    rw [if_pos h1, if_pos h2]
  · intro h1 h2 hentry hbn hcrc htry hm
    simp only [scanStepE]
    rw [if_pos h1, if_neg (by omega : ¬ 0 < st.skip_match_check), hentry,
      if_pos ⟨hbn, hcrc⟩, htry]
    simp [hm]

/-- Symbolic evaluation of `try_dedupe_full` on a three-identical-block
file anchored at blocks 0 and 1: two matched blocks, one behind, and the
run is too short for a shared-extent request in any mode. -/
lemma try_full_three_identical (simulate : Bool) (io : IoctlOutcome) (a : Block) :
    try_dedupe_full simulate io [a, a, a] 0 [a, a, a] 1 true = Except.ok (2, 1) := by
  simp [try_dedupe_full, try_dedupe_match, find_matching_blocks_before,
    find_matching_blocks_behind, maxBeforeBound, maxBehindBound, beforeLoop, behindLoop,
    readBlock, do_dedup]

/-- Witness for C8 on the file `[A, A, A]`: block 1 confirms a match and
sets the skip counter to 1; block 2 then decrements the counter while
still recording its own checksum and location. -/
theorem skip_counter_state_machine_witness :
    scanStepE false ioOk [fAAA] 0 fAAA (mkBlock 1) 1
      ⟨[⟨0, 0, 0⟩, ⟨0, 0, 0⟩, ⟨4823603603198064275, 1, 0⟩], 0, 0, 0⟩ =
      Except.ok ⟨[⟨0, 0, 0⟩, ⟨0, 0, 0⟩, ⟨4823603603198064275, 2, 0⟩], 1, 2, 1⟩ ∧
    scanStepE false ioOk [fAAA] 0 fAAA (mkBlock 1) 2
      ⟨[⟨0, 0, 0⟩, ⟨0, 0, 0⟩, ⟨4823603603198064275, 2, 0⟩], 1, 2, 1⟩ =
      Except.ok ⟨[⟨0, 0, 0⟩, ⟨0, 0, 0⟩, ⟨4823603603198064275, 3, 0⟩], 1, 2, 0⟩ := by
  constructor
  · have h := (skip_counter_state_machine false ioOk [fAAA] 0 fAAA (mkBlock 1) 1
      ⟨[⟨0, 0, 0⟩, ⟨0, 0, 0⟩, ⟨4823603603198064275, 1, 0⟩], 0, 0, 0⟩
      ⟨4823603603198064275, 1, 0⟩ 2 1).2
    rw [crc64_mkBlock_one, show fAAA.blocks.length = 3 from rfl,
      show (4823603603198064275 : Nat) % 3 = 2 from by norm_num] at h
    have h2 := h (by decide) rfl (by rfl) (by decide) rfl
      (by
        rw [show ([fAAA].getD (⟨4823603603198064275, 1, 0⟩ : Blockinfo).file_index
          ⟨"", []⟩) = fAAA from rfl,
          show (⟨4823603603198064275, 1, 0⟩ : Blockinfo).block_number_plus_one - 1 = 0
            from rfl,
          show (fAAA.path == fAAA.path) = true from by decide,
          show fAAA.blocks = [mkBlock 1, mkBlock 1, mkBlock 1] from rfl]
        exact try_full_three_identical false ioOk (mkBlock 1))
      (by decide)
    rw [show ((⟨[⟨0, 0, 0⟩, ⟨0, 0, 0⟩, ⟨4823603603198064275, 1, 0⟩], 0, 0, 0⟩ :
        ScanSt).hashes.set 2 ⟨4823603603198064275, 1 + 1, 0⟩ :
        List Blockinfo) = [⟨0, 0, 0⟩, ⟨0, 0, 0⟩, ⟨4823603603198064275, 2, 0⟩]
        from rfl] at h2
    exact h2
  · have h := (skip_counter_state_machine false ioOk [fAAA] 0 fAAA (mkBlock 1) 2
      ⟨[⟨0, 0, 0⟩, ⟨0, 0, 0⟩, ⟨4823603603198064275, 2, 0⟩], 1, 2, 1⟩
      ⟨0, 0, 0⟩ 0 0).1
    rw [crc64_mkBlock_one, show fAAA.blocks.length = 3 from rfl,
      show (4823603603198064275 : Nat) % 3 = 2 from by norm_num] at h
    have h2 := h (by decide) (by decide)
    rw [show ((⟨[⟨0, 0, 0⟩, ⟨0, 0, 0⟩, ⟨4823603603198064275, 2, 0⟩], 1, 2, 1⟩ :
        ScanSt).hashes.set 2 ⟨4823603603198064275, 2 + 1, 0⟩ :
        List Blockinfo) = [⟨0, 0, 0⟩, ⟨0, 0, 0⟩, ⟨4823603603198064275, 3, 0⟩]
        from rfl] at h2
    exact h2

/-! ### File catalog properties -/

mutual
/-- The total returned for a tree is the sum of the listed whole-block
counts, and every listed file has at least one whole block. -/
theorem build_tree_props (t : FsTree) :
    (build_file_list_recurse t).2 =
      ((build_file_list_recurse t).1.map FileInfo.full_blocks).sum ∧
    ∀ fi ∈ (build_file_list_recurse t).1, 1 ≤ fi.full_blocks := by
  cases t with
  | file p size =>
    simp only [build_file_list_recurse]
    split_ifs with h
    · simp
    · simp [FileInfo.full_blocks]
      omega
  | dir entries => exact build_forest_props entries
/-- The forest version of `build_tree_props`. -/
theorem build_forest_props (ts : FsForest) :
    (buildForest ts).2 = ((buildForest ts).1.map FileInfo.full_blocks).sum ∧
    ∀ fi ∈ (buildForest ts).1, 1 ≤ fi.full_blocks := by
  cases ts with
  | nil => simp [buildForest]
  | cons t ts =>
    have h1 := build_tree_props t
    have h2 := build_forest_props ts
    simp only [buildForest, List.map_append, List.sum_append, List.mem_append]
    constructor
    · rw [h1.1, h2.1]
    · intro fi hfi
      rcases hfi with hfi | hfi
      · exact h1.2 fi hfi
      · exact h2.2 fi hfi
end

/-- C10.  Sub-block files are dropped: a regular file smaller than 4096
bytes contributes nothing to the catalog (it is never listed, so the scan
never opens it), every listed file has at least one whole block, and the
returned total equals the sum of the listed files' whole-block counts. -/
theorem build_file_list_drops_sub_block_files (p : String) (size : Nat) (t : FsTree)
    (fi : FileInfo) :
    (size < 4096 → build_file_list_recurse (FsTree.file p size) = ([], 0)) ∧
    (fi ∈ (build_file_list t).1 → 1 ≤ fi.full_blocks) ∧
    (build_file_list t).2 = ((build_file_list t).1.map FileInfo.full_blocks).sum := by
  refine ⟨?_, ?_, ?_⟩
  · intro h
    simp [build_file_list_recurse, Nat.div_eq_of_lt h]
  · intro h
    exact (build_tree_props t).2 fi h
  · exact (build_tree_props t).1

/-- Witness for C10 on the concrete tree: the 100-byte file is dropped,
the listed 8192-byte file has two whole blocks, and the total is the sum
of listed counts. -/
theorem build_file_list_drops_sub_block_files_witness :
    build_file_list_recurse (FsTree.file "/x" 100) = ([], 0) ∧
    1 ≤ (⟨"/a", 2⟩ : FileInfo).full_blocks ∧
    (build_file_list exampleTree).2 =
      ((build_file_list exampleTree).1.map FileInfo.full_blocks).sum :=
  ⟨(build_file_list_drops_sub_block_files "/x" 100 exampleTree ⟨"/a", 2⟩).1
      (by norm_num),
    (build_file_list_drops_sub_block_files "/x" 100 exampleTree ⟨"/a", 2⟩).2.1
      (by decide),
    (build_file_list_drops_sub_block_files "/x" 100 exampleTree ⟨"/a", 2⟩).2.2⟩

/-- C9.  Hash-table access safety: every file in the catalog has a positive
whole-block count (so `crc_result % block_count` never divides by zero),
that count is at most the grand total, and for any checksum the slot
`c % full_blocks` is strictly below the length of the `hashes` table that
`main` allocates with one `Blockinfo` per block of the whole input set. -/
theorem hash_slot_in_bounds (t : FsTree) (fi : FileInfo) (c : Nat)
    (h : fi ∈ (build_file_list t).1) :
    0 < fi.full_blocks ∧ fi.full_blocks ≤ (build_file_list t).2 ∧
    c % fi.full_blocks <
      (List.replicate (build_file_list t).2 (⟨0, 0, 0⟩ : Blockinfo)).length := by
  have h1 := (build_tree_props t).2 fi h
  have h2 : fi.full_blocks ≤ (build_file_list t).2 := by
    rw [show (build_file_list t).2 =
      ((build_file_list t).1.map FileInfo.full_blocks).sum from (build_tree_props t).1]
    exact List.single_le_sum (fun x _ => Nat.zero_le x) fi.full_blocks
      (List.mem_map_of_mem FileInfo.full_blocks h)
  refine ⟨h1, h2, ?_⟩
  rw [List.length_replicate]
  exact lt_of_lt_of_le (Nat.mod_lt c h1) h2

/-- Witness for C9 on the concrete tree, checksum 7 and the listed
two-block file. -/
theorem hash_slot_in_bounds_witness :
    0 < (⟨"/a", 2⟩ : FileInfo).full_blocks ∧
    (⟨"/a", 2⟩ : FileInfo).full_blocks ≤ (build_file_list exampleTree).2 ∧
    7 % (⟨"/a", 2⟩ : FileInfo).full_blocks <
      (List.replicate (build_file_list exampleTree).2 (⟨0, 0, 0⟩ : Blockinfo)).length :=
  hash_slot_in_bounds exampleTree ⟨"/a", 2⟩ 7 (by decide)

end Blockdedup
